import Mathlib

/-!
Verification of the process-supervisor script `src/scripts/batch.py`
(the `BotManager` class and its helpers) against its design spec.

The Python code is shallowly embedded: every embedded definition mirrors a
function or code path of `batch.py`.  Operating-system effects (spawning,
signalling, the passage of the one-second grace period) are made explicit as
data: each supervised process carries, besides its current status, the two
facts the OS decides at runtime — whether it exits within the grace period
after `terminate()`, and whether the `terminate()` call itself raises an
`OSError`.  Log calls become values of type `LogMsg`, and the observable
actions of `cleanup` become an event trace.
-/

namespace Batch

/-- Severity levels of the loguru logger used by `batch.py`
(`logger.info` / `warning` / `error` / `success`). -/
inductive Severity
  | info
  | warning
  | error
  | success
deriving DecidableEq, Repr

/-- One structured log line: a severity and the formatted message. -/
structure LogMsg where
  sev : Severity
  msg : String
deriving DecidableEq, Repr

/-- Python `pat in s` substring containment, on the embedded strings. -/
def containsSub (pat s : String) : Bool :=
  decide (pat.toList <:+: s.toList)

/-- Python `str.rstrip()`: remove trailing whitespace only.  Used by the
spec-side model of the relay (the spec says "strip trailing whitespace"). -/
def rstripStr (s : String) : String :=
  String.mk ((s.toList.reverse.dropWhile Char.isWhitespace).reverse)

/-- Python `str.strip()`: remove leading and trailing whitespace. -/
def stripStr (s : String) : String :=
  String.mk
    (((s.toList.dropWhile Char.isWhitespace).reverse.dropWhile
        Char.isWhitespace).reverse)

/-- Python `s.startswith(pat)`. -/
def startsWithStr (pat s : String) : Bool :=
  decide (pat.toList <+: s.toList)

/-- Embeds the severity classification inside `log_output`
(`batch.py` lines 65–72): `"ERROR" in line` → error, elif `"WARNING"`
→ warning, elif `"SUCCESS"` → success, else info. -/
def classifyLine (line : String) : Severity :=
  if containsSub "ERROR" line then .error
  else if containsSub "WARNING" line then .warning
  else if containsSub "SUCCESS" line then .success
  else .info

/-- Embeds `log_output(stream, prefix)` (`batch.py` lines 61–72).  The
stream is the list of lines read; `label` is the `prefix` argument.  Each
line is `line.strip()`-ped (Python `strip` removes leading AND trailing
whitespace; `stripStr` mirrors it), empty results are skipped,
and the rest are logged as `f"{prefix}: {line}"` at the classified
severity.  The braces here describe Python f-string interpolation. -/
def log_output (lines : List String) (label : String) : List LogMsg :=
  lines.filterMap fun raw =>
    let line := stripStr raw
    if line = "" then none
    else some ⟨classifyLine line, label ++ ": " ++ line⟩

/-- Modelled from the spec (claim C7's own words), for comparison with
`log_output`: "strip trailing whitespace; skip empty lines; classify by
substring containment in priority order".  The priority order is written
as an ordered table, and only TRAILING whitespace is stripped, exactly as
the claim states. -/
def relaySpecTrailing (lines : List String) (label : String) : List LogMsg :=
  match lines with
  | [] => []
  | raw :: rest =>
    let line := rstripStr raw
    (if line = "" then []
     else
       let sev :=
         match [("ERROR", Severity.error), ("WARNING", Severity.warning),
                ("SUCCESS", Severity.success)].find? (fun pr => containsSub pr.1 line) with
         | some pr => pr.2
         | none => Severity.info
       [⟨sev, label ++ ": " ++ line⟩]) ++ relaySpecTrailing rest label

/-- The amended spec-side relay: identical to `relaySpecTrailing` except
that leading and trailing whitespace are both stripped, matching Python's
`str.strip()`. -/
def relaySpecAmended (lines : List String) (label : String) : List LogMsg :=
  match lines with
  | [] => []
  | raw :: rest =>
    let line := stripStr raw
    (if line = "" then []
     else
       let sev :=
         match [("ERROR", Severity.error), ("WARNING", Severity.warning),
                ("SUCCESS", Severity.success)].find? (fun pr => containsSub pr.1 line) with
         | some pr => pr.2
         | none => Severity.info
       [⟨sev, label ++ ": " ++ line⟩]) ++ relaySpecAmended rest label

/-! ## Supervised processes and the registry -/

/-- The observable status of a `subprocess.Popen` handle: still running, or
exited with a return code (`poll()` returns `None` resp. the code). -/
inductive ProcStatus
  | running
  | exited (code : Int)
deriving DecidableEq, Repr

/-- A child process handle together with the two facts the operating system
decides at runtime and that the code branches on during teardown:
whether the process exits within the one-second grace period once
`terminate()` has been delivered, and whether the `terminate()` call raises
(e.g. an `OSError`) while the process is running. -/
structure Proc where
  status : ProcStatus
  exitsOnTerm : Bool
  termRaises : Bool
deriving DecidableEq, Repr

/-- A registry value: `{"process": process, "command": command}`
(`batch.py` line 81). -/
structure ProcInfo where
  process : Proc
  command : List String
deriving DecidableEq, Repr

/-- `self.processes`: a Python dict from name to `ProcInfo`, embedded as an
insertion-ordered association list (Python dicts preserve insertion order
and `cleanup`/`monitor_processes` iterate in that order). -/
abbrev Registry := List (String × ProcInfo)

/-- `Popen.poll()`: `None` while running, else the exit code. -/
def pyPoll (p : Proc) : Option Int :=
  match p.status with
  | .running => none
  | .exited c => some c

/-- `Popen.terminate()`: `send_signal` first polls and does nothing when the
process has already exited (so it never raises there); on a running process
it delivers SIGTERM, which may raise at the OS level (`p.termRaises`). -/
def pyTerminate (p : Proc) : Except String Proc :=
  match p.status with
  | .exited _ => .ok p
  | .running => if p.termRaises then .error "OSError" else .ok p

/-- `Popen.kill()`: SIGKILL; a no-op on an exited process, otherwise the
process is forcibly exited (conventional status -9). -/
def pyKill (p : Proc) : Proc :=
  match p.status with
  | .exited _ => p
  | .running => { p with status := .exited (-9) }

/-- The state of the process after the `await asyncio.sleep(1)` grace period
that follows `terminate()`: a running process that reacts to SIGTERM within
the second becomes exited (conventional status -15); otherwise unchanged. -/
def afterGrace (p : Proc) : Proc :=
  match p.status with
  | .exited _ => p
  | .running => if p.exitsOnTerm then { p with status := .exited (-15) } else p

/-! ## cleanup -/

/-- Observable actions of `BotManager.cleanup` in program order. -/
inductive CleanupEvent
  | termRequest (name : String)
  | grace (name : String)
  | kill (name : String)
  | log (m : LogMsg)
deriving DecidableEq, Repr

/-- One iteration of the loop in `BotManager.cleanup` (`batch.py` lines
93–103): log "Terminating process", then inside a try/except: `terminate()`,
sleep 1 second, `kill()` if `poll()` is still `None`, and a success log;
any exception from that block is caught and logged as an error. Returns the
process's state afterwards and the events in order. -/
def cleanupOne (name : String) (p : Proc) : Proc × List CleanupEvent :=
  let intro := CleanupEvent.log ⟨.info, "Terminating process: " ++ name⟩
  match pyTerminate p with
  | .error e =>
      (p, [intro, .termRequest name,
           .log ⟨.error, "Error terminating process " ++ name ++ ": " ++ e⟩])
  | .ok p1 =>
      let p2 := afterGrace p1
      match pyPoll p2 with
      | none =>
          (pyKill p2,
           [intro, .termRequest name, .grace name, .kill name,
            .log ⟨.success, "Process " ++ name ++ " terminated successfully"⟩])
      | some _ =>
          (p2,
           [intro, .termRequest name, .grace name,
            .log ⟨.success, "Process " ++ name ++ " terminated successfully"⟩])

/-- `BotManager.cleanup` (`batch.py` lines 90–107): iterate over
`self.processes.items()` in insertion order, run `cleanupOne` on each, and
finish with the "Cleanup completed successfully" log.  The registry mapping
itself is never mutated — entries are neither removed nor re-keyed; only the
underlying process states change.  All exceptions are caught inside the
function (inner per-process handler, outer catch-all), so the embedding is a
total function: no error propagates to the caller. -/
def cleanup (reg : Registry) : Registry × List CleanupEvent :=
  match reg with
  | [] => ([], [CleanupEvent.log ⟨.success, "Cleanup completed successfully"⟩])
  | (n, info) :: rest =>
      let step := cleanupOne n info.process
      let tail := cleanup rest
      ((n, { info with process := step.1 }) :: tail.1, step.2 ++ tail.2)

/-- Modelled from the spec's words (section 4.2, `cleanup()`): "for every
registered process, in registry order: request graceful termination, wait up
to 1 second, then force-kill if still running; log success or failure per
process".  Written from the spec sentence, for comparison with the trace the
embedded code produces. -/
def specTeardown (name : String) (p : Proc) : List CleanupEvent :=
  let announce := CleanupEvent.log ⟨.info, "Terminating process: " ++ name⟩
  if p.status = .running ∧ p.termRaises = true then
    [announce, .termRequest name,
     .log ⟨.error, "Error terminating process " ++ name ++ ": OSError"⟩]
  else
    [announce, .termRequest name, .grace name] ++
      (if p.status = .running ∧ p.exitsOnTerm = false then [.kill name] else []) ++
      [.log ⟨.success, "Process " ++ name ++ " terminated successfully"⟩]

/-! ## The shutdown flag (`self.shutdown_event`) -/

/-- Every operation the program performs on `self.shutdown_event`, read off
the source: the SIGINT and SIGTERM handlers installed in `main` call
`set()` (lines 247–251), the `finally` block of the Running phase calls
`set()` (line 226), the monitor loop condition calls `is_set()` (line 111),
and the driver blocks in `wait()` (line 222).  `Event.clear()` is called
nowhere. -/
inductive FlagOp
  | sigintHandler
  | sigtermHandler
  | internalSet
  | monitorIsSet
  | driverWait
deriving DecidableEq, Repr

/-- Effect of one flag operation on the flag's value: the three producers
set it to true; the two consumers only read it. -/
def applyFlagOp : FlagOp → Bool → Bool
  | .sigintHandler, _ => true
  | .sigtermHandler, _ => true
  | .internalSet, _ => true
  | .monitorIsSet, b => b
  | .driverWait, b => b

/-- The flag value after a sequence of program operations. -/
def runFlagOps (ops : List FlagOp) (b : Bool) : Bool :=
  ops.foldl (fun acc op => applyFlagOp op acc) b

/-! ## monitor_processes (the liveness sweep) -/

/-- What one scheduled sweep iteration does, decided by the runtime: it
completes normally, is cancelled (`asyncio.CancelledError`), or raises some
unexpected exception. -/
inductive TickOutcome
  | normal
  | cancelled
  | errored (msg : String)
deriving DecidableEq, Repr

/-- The warnings one normal sweep iteration emits (`batch.py` lines
113–118): for each registered process whose `poll()` is not `None`, log
"Process ... exited with code: ..." at warning severity. -/
def sweepWarnings (reg : Registry) : List LogMsg :=
  reg.filterMap fun e =>
    match pyPoll e.2.process with
    | some c =>
        some ⟨.warning, "Process " ++ e.1 ++ " exited with code: " ++ toString c⟩
    | none => none

/-- `BotManager.monitor_processes` (`batch.py` lines 109–124).  `sched`
lists, for each prospective iteration, the flag value `is_set()` observes at
the `while` condition and the iteration's runtime outcome.  Returns the
registry (which the sweep never mutates), the logs, in order, and the number
of iterations that were initiated.  A `CancelledError` breaks the loop; any
other exception is logged as an error and the loop continues. -/
def monitor_processes (sched : List (Bool × TickOutcome)) (reg : Registry) :
    Registry × List LogMsg × Nat :=
  match sched with
  | [] => (reg, [], 0)
  | (flag, out) :: rest =>
      if flag then (reg, [], 0)
      else
        match out with
        | .cancelled => (reg, [], 1)
        | .errored e =>
            let t := monitor_processes rest reg
            (t.1, ⟨.error, "Error monitoring processes: " ++ e⟩ :: t.2.1, t.2.2 + 1)
        | .normal =>
            let t := monitor_processes rest reg
            (t.1, sweepWarnings reg ++ t.2.1, t.2.2 + 1)

/-! ## URL validation and interactive input -/

/-- `validate_url` (`batch.py` lines 23–27): raises `ValueError` unless the
URL starts with `https://`. -/
def validate_url (url : String) : Except String String :=
  if startsWithStr "https://" url then .ok url
  else .error "URL must start with https://"

/-- `get_user_input(prompt, validate_url)` (`batch.py` lines 30–39):
`inputs` are the successive lines the user types.  Each line is stripped;
a `ValueError` from the validator is logged as a warning and the loop
re-prompts.  The first component is `none` when the input list is
exhausted, modelling `input()` raising (e.g. `EOFError` on a closed stdin),
which propagates out of the loop uncaught. -/
def get_user_input (inputs : List String) : Option String × List LogMsg :=
  match inputs with
  | [] => (none, [])
  | i :: rest =>
      match validate_url (stripStr i) with
      | .ok u => (some u, [])
      | .error e =>
          let t := get_user_input rest
          (t.1, ⟨.warning, "Invalid input received: " ++ e⟩ :: t.2)

/-! ## run_command and the registry -/

/-- Python dict assignment `self.processes[name] = info`: if the key is
present its value is replaced in place (dicts keep the key's original
position); otherwise the pair is appended. -/
def registryInsert (reg : Registry) (name : String) (info : ProcInfo) : Registry :=
  match reg with
  | [] => [(name, info)]
  | (n, i) :: rest =>
      if n = name then (n, info) :: rest
      else (n, i) :: registryInsert rest name info

/-- `BotManager.run_command` (`batch.py` lines 49–88) at the registry level.
`spawnOk` is whether `subprocess.Popen` (and the thread start-up that
follows) succeeds; `proc` is the spawned process's observable behaviour.
On success the process is stored under `name` (overwriting any existing
entry) and a handle is returned (`true`); on failure the exception is
caught, logged, `None` is returned (`false`) and the registry is left
untouched — the assignment on line 81 is never reached. -/
def run_command (reg : Registry) (command : List String) (name : String)
    (spawnOk : Bool) (proc : Proc) : Registry × Bool :=
  if spawnOk then (registryInsert reg name ⟨proc, command⟩, true)
  else (reg, false)

/-! ## Persona resolution -/

/-- Persona selection in `async_main` (`batch.py` lines 155–162).
`randIdx` is the oracle behind `random.choice`: Python draws an index
uniformly below the sequence length, so with `randIdx` uniformly
distributed the selection is uniform over `available`.  `random.choice`
raises `IndexError` on an empty sequence.  An explicitly supplied name
that is not in the list raises `ValueError` (line 159). -/
def resolvePersona (personaArg : Option String) (available : List String)
    (randIdx : Nat) : Except String String :=
  match personaArg with
  | some p =>
      if p ∈ available then .ok p
      else .error ("Persona " ++ p ++ " not found in available personas")
  | none =>
      if h : available.length = 0 then
        .error "Cannot choose from an empty sequence"
      else
        .ok (available.get ⟨randIdx % available.length,
          Nat.mod_lt _ (Nat.pos_of_ne_zero h)⟩)

/-! ## The session driver: async_main and main -/

/-- All runtime inputs `async_main` depends on: the parsed command-line
arguments, the interactive input stream, the persona collaborator's
answers, the `random.choice` oracle, and the OS-level outcome of each of
the two spawns.  `botProc` / `meetingProc` describe each spawned process's
observable behaviour at teardown time. -/
structure Env where
  meetingUrlArg : Option String
  promptInputs : List String
  personaArg : Option String
  availablePersonas : List String
  randIdx : Nat
  personaPrompt : String
  port : Nat
  botSpawnOk : Bool
  botProc : Proc
  meetingSpawnOk : Bool
  meetingProc : Proc
deriving Repr

/-- The observable outcome of one `async_main` run: which spawns were
attempted (in order), the registry state when `cleanup` runs, cleanup's
event trace, an exception escaping `async_main` (if any), and the
exception caught and logged by the outer `except Exception` handler on
line 231 (if any). -/
structure DriverResult where
  spawnAttempts : List String
  registryAtCleanup : Registry
  cleanupTrace : List CleanupEvent
  raised : Option String
  caughtError : Option String
deriving Repr

/-- Meeting-URL resolution (`batch.py` lines 145–149): `args.meeting_url`
is used verbatim when supplied and non-empty — this path performs NO
validation; only when the flag is absent (or empty, since `if not
meeting_url` treats the empty string as falsy) does the interactive prompt
with `validate_url` run. -/
def resolveMeetingUrl (env : Env) : Option String × List LogMsg :=
  match env.meetingUrlArg with
  | some u => if u = "" then get_user_input env.promptInputs else (some u, [])
  | none => get_user_input env.promptInputs

/-- `BotManager.async_main` (`batch.py` lines 126–235).  URL resolution
happens before the `try` on line 151, so an exception there escapes without
cleanup.  Inside the `try`: persona resolution (a `ValueError` is caught by
the outer handler on line 231 and cleanup still runs via `finally`), then
the bot spawn, then the meeting spawn; a failed spawn returns early and the
`finally` block runs `cleanup` over whatever was registered.  On the
success path the driver blocks on the shutdown event, the monitor task runs
and is then joined, and `finally` runs `cleanup` over both processes. -/
def async_main (env : Env) : DriverResult :=
  match (resolveMeetingUrl env).1 with
  | none =>
      { spawnAttempts := [], registryAtCleanup := [], cleanupTrace := [],
        raised := some "EOFError", caughtError := none }
  | some url =>
      match resolvePersona env.personaArg env.availablePersonas env.randIdx with
      | .error e =>
          { spawnAttempts := [], registryAtCleanup := [],
            cleanupTrace := (cleanup []).2, raised := none,
            caughtError := some e }
      | .ok personaName =>
          let botCmd := ["poetry", "run", "bot", "-p", toString env.port,
                         "--system-prompt", env.personaPrompt,
                         "--persona-name", personaName,
                         "--voice-id", "40104aff-a015-4da1-9912-af950fbec99e"]
          let r1 := run_command [] botCmd "bot" env.botSpawnOk env.botProc
          if r1.2 = false then
            { spawnAttempts := ["bot"], registryAtCleanup := r1.1,
              cleanupTrace := (cleanup r1.1).2, raised := none,
              caughtError := none }
          else
            let meetCmd := ["poetry", "run", "meetingbaas", "--meeting-url",
                            url, "--persona-name", personaName]
            let r2 := run_command r1.1 meetCmd "meeting" env.meetingSpawnOk
                        env.meetingProc
            if r2.2 = false then
              { spawnAttempts := ["bot", "meeting"], registryAtCleanup := r2.1,
                cleanupTrace := (cleanup r2.1).2, raised := none,
                caughtError := none }
            else
              { spawnAttempts := ["bot", "meeting"], registryAtCleanup := r2.1,
                cleanupTrace := (cleanup r2.1).2, raised := none,
                caughtError := none }

/-- `BotManager.main` (`batch.py` lines 237–262): an exception escaping
`async_main` (or the event-loop plumbing) is caught, logged, and answered
with `sys.exit(1)`; otherwise the program falls off the end of `main` and
exits with the implicit status 0. -/
def mainExitCode (env : Env) : Nat :=
  match (async_main env).raised with
  | some _ => 1
  | none => 0

/-! ## Concrete scenarios used as counterexamples and witnesses -/

/-- A run in which `subprocess.Popen` fails for the bot (worker) process —
the "worker spawn fails" scenario of the spec.  Everything else is
well-formed: a valid URL and persona are supplied. -/
def envBotSpawnFailure : Env :=
  { meetingUrlArg := some "https://meet.example.com/abc"
    promptInputs := []
    personaArg := some "alpha"
    availablePersonas := ["alpha", "beta"]
    randIdx := 0
    personaPrompt := "be helpful"
    port := 8765
    botSpawnOk := false
    botProc := ⟨.running, true, false⟩
    meetingSpawnOk := true
    meetingProc := ⟨.running, true, false⟩ }

/-- A run in which `--meeting-url` is supplied with a URL that does NOT
start with `https://`, while everything else is well-formed and both
spawns succeed. -/
def envUnvalidatedUrl : Env :=
  { meetingUrlArg := some "http://insecure.example.com/xyz"
    promptInputs := []
    personaArg := some "alpha"
    availablePersonas := ["alpha", "beta"]
    randIdx := 0
    personaPrompt := "be helpful"
    port := 8765
    botSpawnOk := true
    botProc := ⟨.running, true, false⟩
    meetingSpawnOk := true
    meetingProc := ⟨.running, true, false⟩ }

/-- A two-process registry in which terminating the first process raises an
`OSError` while the second terminates normally. -/
def regTermError : Registry :=
  [("bot", ⟨⟨.running, false, true⟩, ["poetry", "run", "bot"]⟩),
   ("meeting", ⟨⟨.running, true, false⟩, ["poetry", "run", "meetingbaas"]⟩)]

/-- A run in which `--persona gamma` is supplied while the collaborator
lists only `alpha` and `beta` — the bad-persona scenario of the spec. -/
def envBadPersona : Env :=
  { meetingUrlArg := some "https://meet.example.com/abc"
    promptInputs := []
    personaArg := some "gamma"
    availablePersonas := ["alpha", "beta"]
    randIdx := 0
    personaPrompt := "be helpful"
    port := 8765
    botSpawnOk := true
    botProc := ⟨.running, true, false⟩
    meetingSpawnOk := true
    meetingProc := ⟨.running, true, false⟩ }

/-- A registry with one exited child (`bot` finished with code 3) and one
running child, used to exercise the liveness sweep. -/
def regExitedChild : Registry :=
  [("bot", ⟨⟨.exited 3, false, false⟩, ["poetry", "run", "bot"]⟩),
   ("meeting", ⟨⟨.running, true, false⟩, ["poetry", "run", "meetingbaas"]⟩)]

/-! ## Helper lemmas -/

lemma classifyLine_eq_table (line : String) :
    classifyLine line =
      (match [("ERROR", Severity.error), ("WARNING", Severity.warning),
              ("SUCCESS", Severity.success)].find? (fun pr => containsSub pr.1 line) with
       | some pr => pr.2
       | none => Severity.info) := by
  simp only [classifyLine, List.find?]
  by_cases h1 : containsSub "ERROR" line <;>
    by_cases h2 : containsSub "WARNING" line <;>
      by_cases h3 : containsSub "SUCCESS" line <;>
        simp [h1, h2, h3]

lemma cleanupOne_idem (name : String) (p : Proc) :
    (cleanupOne name (cleanupOne name p).1).1 = (cleanupOne name p).1 := by
  cases hs : p.status with
  | exited c =>
      simp [cleanupOne, pyTerminate, afterGrace, pyPoll, hs]
  | running =>
      by_cases hr : p.termRaises
      · simp [cleanupOne, pyTerminate, hs, hr]
      · by_cases he : p.exitsOnTerm <;>
          simp [cleanupOne, pyTerminate, afterGrace, pyPoll, pyKill, hs, hr, he]

lemma cleanupOne_exited (name : String) (c : Int) (et tr : Bool) :
    cleanupOne name ⟨.exited c, et, tr⟩ =
      (⟨.exited c, et, tr⟩,
       [.log ⟨.info, "Terminating process: " ++ name⟩, .termRequest name,
        .grace name,
        .log ⟨.success, "Process " ++ name ++ " terminated successfully"⟩]) := rfl

lemma cleanupOne_trace_eq_specTeardown (name : String) (p : Proc) :
    (cleanupOne name p).2 = specTeardown name p := by
  cases hs : p.status with
  | exited c =>
      simp [cleanupOne, specTeardown, pyTerminate, afterGrace, pyPoll, hs]
  | running =>
      by_cases hr : p.termRaises
      · simp [cleanupOne, specTeardown, pyTerminate, hs, hr, String.append_assoc]
      · by_cases he : p.exitsOnTerm <;>
          simp [cleanupOne, specTeardown, pyTerminate, afterGrace, pyPoll, pyKill,
            hs, hr, he]

lemma cleanup_trace_eq (reg : Registry) :
    (cleanup reg).2 =
      (reg.flatMap fun e => specTeardown e.1 e.2.process) ++
        [CleanupEvent.log ⟨.success, "Cleanup completed successfully"⟩] := by
  induction reg with
  | nil => rfl
  | cons hd rest ih =>
      obtain ⟨n, info⟩ := hd
      simp [cleanup, cleanupOne_trace_eq_specTeardown, ih]

lemma mem_cleanupOne_mem_cleanup (reg : Registry) (nm : String) (info : ProcInfo)
    (hmem : (nm, info) ∈ reg) (ev : CleanupEvent)
    (hev : ev ∈ (cleanupOne nm info.process).2) : ev ∈ (cleanup reg).2 := by
  induction reg with
  | nil => cases hmem
  | cons hd rest ih =>
      obtain ⟨n, i⟩ := hd
      simp only [cleanup, List.mem_append]
      rcases List.mem_cons.1 hmem with heq | htail
      · left
        cases heq
        exact hev
      · right
        exact ih htail

lemma termRequest_mem_cleanupOne (name : String) (p : Proc) :
    CleanupEvent.termRequest name ∈ (cleanupOne name p).2 := by
  cases hs : p.status with
  | exited c => simp [cleanupOne, pyTerminate, afterGrace, pyPoll, hs]
  | running =>
      by_cases hr : p.termRaises
      · simp [cleanupOne, pyTerminate, hs, hr]
      · by_cases he : p.exitsOnTerm <;>
          simp [cleanupOne, pyTerminate, afterGrace, pyPoll, hs, hr, he]

lemma cleanup_fst_idem (reg : Registry) :
    (cleanup (cleanup reg).1).1 = (cleanup reg).1 := by
  induction reg with
  | nil => rfl
  | cons hd rest ih =>
      obtain ⟨n, info⟩ := hd
      simp only [cleanup]
      rw [cleanupOne_idem]
      simpa using ih

lemma errorLog_mem_cleanupOne (name : String) (p : Proc)
    (hrun : p.status = .running) (hr : p.termRaises = true) :
    CleanupEvent.log ⟨.error, "Error terminating process " ++ name ++ ": OSError"⟩
      ∈ (cleanupOne name p).2 := by
  simp [cleanupOne, pyTerminate, hrun, hr, String.append_assoc]

lemma monitor_processes_reg (sched : List (Bool × TickOutcome)) (reg : Registry) :
    (monitor_processes sched reg).1 = reg := by
  induction sched with
  | nil => rfl
  | cons hd rest ih =>
      obtain ⟨flag, out⟩ := hd
      cases flag
      · cases out <;> simp [monitor_processes, ih]
      · simp [monitor_processes]

lemma warning_mem_sweepWarnings (reg : Registry) (nm : String) (info : ProcInfo)
    (c : Int) (hmem : (nm, info) ∈ reg) (hc : pyPoll info.process = some c) :
    (⟨.warning, "Process " ++ nm ++ " exited with code: " ++ toString c⟩ : LogMsg)
      ∈ sweepWarnings reg := by
  simp only [sweepWarnings, List.mem_filterMap]
  refine ⟨(nm, info), hmem, ?_⟩
  simp [hc]

lemma registryInsert_mem_self (reg : Registry) (name : String) (info : ProcInfo) :
    (name, info) ∈ registryInsert reg name info := by
  induction reg with
  | nil => simp [registryInsert]
  | cons hd rest ih =>
      obtain ⟨n, i⟩ := hd
      by_cases h : n = name <;> simp [registryInsert, h, ih]

lemma registryInsert_keys_of_mem (reg : Registry) (name : String) (info : ProcInfo)
    (h : name ∈ reg.map Prod.fst) :
    (registryInsert reg name info).map Prod.fst = reg.map Prod.fst := by
  induction reg with
  | nil => simp at h
  | cons hd rest ih =>
      obtain ⟨n, i⟩ := hd
      by_cases hn : n = name
      · simp [registryInsert, hn]
      · have h' : name = n ∨ name ∈ rest.map Prod.fst := by
          simpa only [List.map_cons, List.mem_cons] using h
        have hrest : name ∈ rest.map Prod.fst := by
          rcases h' with heq | htail
          · exact absurd heq.symm hn
          · exact htail
        simp [registryInsert, hn, ih hrest]

lemma registryInsert_old_not_mem (reg : Registry) (name : String)
    (newInfo oldInfo : ProcInfo) (hnd : (reg.map Prod.fst).Nodup)
    (hne : oldInfo ≠ newInfo) :
    (name, oldInfo) ∉ registryInsert reg name newInfo := by
  induction reg with
  | nil =>
      simp [registryInsert, hne]
  | cons hd rest ih =>
      obtain ⟨n, i⟩ := hd
      simp only [List.map_cons, List.nodup_cons] at hnd
      by_cases hn : n = name
      · subst hn
        simp only [registryInsert, if_pos rfl]
        intro hmem
        rcases List.mem_cons.1 hmem with heq | htail
        · exact hne (congrArg Prod.snd heq)
        · exact hnd.1 (List.mem_map_of_mem Prod.fst htail)
      · simp only [registryInsert, if_neg hn]
        intro hmem
        rcases List.mem_cons.1 hmem with heq | htail
        · exact hn (congrArg Prod.fst heq).symm
        · exact ih hnd.2 htail

lemma count_termRequest_specTeardown (n nm : String) (p : Proc) :
    (specTeardown n p).count (CleanupEvent.termRequest nm) =
      if n = nm then 1 else 0 := by
  rw [← cleanupOne_trace_eq_specTeardown]
  cases hs : p.status with
  | exited c =>
      by_cases h : n = nm <;>
        simp [cleanupOne, pyTerminate, afterGrace, pyPoll, hs, h,
          List.count_cons, beq_iff_eq]
  | running =>
      by_cases hr : p.termRaises
      · by_cases h : n = nm <;>
          simp [cleanupOne, pyTerminate, hs, hr, h, List.count_cons, beq_iff_eq]
      · by_cases he : p.exitsOnTerm <;> by_cases h : n = nm <;>
          simp [cleanupOne, pyTerminate, afterGrace, pyPoll, pyKill, hs, hr, he,
            h, List.count_cons, beq_iff_eq]

lemma count_termRequest_cleanup (reg : Registry) (nm : String) :
    ((cleanup reg).2).count (CleanupEvent.termRequest nm) =
      (reg.map Prod.fst).count nm := by
  induction reg with
  | nil => simp [cleanup]
  | cons hd rest ih =>
      obtain ⟨n, info⟩ := hd
      simp only [cleanup]
      rw [List.count_append, cleanupOne_trace_eq_specTeardown,
        count_termRequest_specTeardown]
      by_cases h : n = nm <;> simp [h, ih, List.count_cons, Nat.add_comm]

/-! ## Claim theorems -/

/-- C1: `cleanup()` is idempotent: for every registry state, invoking
cleanup twice in sequence, or invoking it on a process that has already
exited, raises no error and leaves the registry in the same terminal state
after both invocations.  First conjunct: a second `cleanup` leaves the
registry exactly where the first left it.  Second conjunct: on an
already-exited process the teardown step is a no-op with a success log —
`terminate()` does not raise, no kill is issued, the state is unchanged.
`cleanup` is a total function because the source catches every exception
(inner per-process handler and outer catch-all), so no invocation raises. -/
theorem cleanup_idempotent :
    (∀ reg : Registry, (cleanup (cleanup reg).1).1 = (cleanup reg).1) ∧
    (∀ (name : String) (c : Int) (et tr : Bool),
      cleanupOne name ⟨.exited c, et, tr⟩ =
        (⟨.exited c, et, tr⟩,
         [.log ⟨.info, "Terminating process: " ++ name⟩, .termRequest name,
          .grace name,
          .log ⟨.success, "Process " ++ name ++ " terminated successfully"⟩])) :=
  ⟨cleanup_fst_idem, fun name c et tr => cleanupOne_exited name c et tr⟩

/-- C2: `cleanup()` isolates per-process failures: in every registry with
two or more processes, if terminating one process raises, that error is
logged, and cleanup still requests termination of every registered
process. -/
theorem cleanup_partial_failure_isolation
    (reg : Registry) (nm : String) (info : ProcInfo)
    (_hlen : 2 ≤ reg.length) (hmem : (nm, info) ∈ reg)
    (hrun : info.process.status = .running) (hr : info.process.termRaises = true) :
    (CleanupEvent.log ⟨.error, "Error terminating process " ++ nm ++ ": OSError"⟩
        ∈ (cleanup reg).2) ∧
    ∀ nm2 info2, (nm2, info2) ∈ reg →
      CleanupEvent.termRequest nm2 ∈ (cleanup reg).2 := by
  constructor
  · exact mem_cleanupOne_mem_cleanup reg nm info hmem _
      (errorLog_mem_cleanupOne nm info.process hrun hr)
  · intro nm2 info2 h2
    exact mem_cleanupOne_mem_cleanup reg nm2 info2 h2 _
      (termRequest_mem_cleanupOne nm2 info2.process)

/-- Witness for C2 on the concrete two-process registry `regTermError`. -/
theorem cleanup_partial_failure_isolation_witness :
    (CleanupEvent.log
        ⟨.error, "Error terminating process " ++ "bot" ++ ": OSError"⟩
        ∈ (cleanup regTermError).2) ∧
    ∀ nm2 info2, (nm2, info2) ∈ regTermError →
      CleanupEvent.termRequest nm2 ∈ (cleanup regTermError).2 :=
  cleanup_partial_failure_isolation regTermError "bot"
    ⟨⟨.running, false, true⟩, ["poetry", "run", "bot"]⟩
    (by decide) (by decide) rfl rfl

/-- C3: for every registered process, in registry order, `cleanup` requests
graceful termination, waits the grace second, force-kills exactly when the
process is still running after the wait, and logs success or failure per
process.  First conjunct: the full event trace equals the spec-side
description `specTeardown`, process by process in registry order.  Second
conjunct: when the termination request itself does not raise, a kill is
issued if and only if the process is still running after the grace
period. -/
theorem cleanup_teardown_sequence :
    (∀ reg : Registry,
      (cleanup reg).2 =
        (reg.flatMap fun e => specTeardown e.1 e.2.process) ++
          [CleanupEvent.log ⟨.success, "Cleanup completed successfully"⟩]) ∧
    (∀ (name : String) (p : Proc), (p.status = .running → p.termRaises = false) →
      (CleanupEvent.kill name ∈ (cleanupOne name p).2 ↔
        pyPoll (afterGrace p) = none)) := by
  refine ⟨cleanup_trace_eq, ?_⟩
  intro name p hnr
  cases hs : p.status with
  | exited c => simp [cleanupOne, pyTerminate, afterGrace, pyPoll, hs]
  | running =>
      have hr : p.termRaises = false := hnr hs
      by_cases he : p.exitsOnTerm <;>
        simp [cleanupOne, pyTerminate, afterGrace, pyPoll, pyKill, hs, hr, he]

/-- Witness for C3: a process that ignores SIGTERM is force-killed. -/
theorem cleanup_teardown_sequence_witness :
    CleanupEvent.kill "bot" ∈ (cleanupOne "bot" ⟨.running, false, false⟩).2 ↔
      pyPoll (afterGrace ⟨.running, false, false⟩) = none :=
  cleanup_teardown_sequence.2 "bot" ⟨.running, false, false⟩ (fun _ => rfl)

/-- C4: the shutdown flag is set-once — every operation the program
performs on `self.shutdown_event` preserves a set flag (nothing ever
clears it, over any op sequence), and once the monitor's `while` condition
observes the flag set, no new sweep iteration is initiated (the loop
returns immediately with zero iterations). -/
theorem shutdown_flag_set_once :
    (∀ op : FlagOp, applyFlagOp op true = true) ∧
    (∀ ops : List FlagOp, runFlagOps ops true = true) ∧
    (∀ (sched : List (Bool × TickOutcome)) (out : TickOutcome) (reg : Registry),
      monitor_processes ((true, out) :: sched) reg = (reg, [], 0)) := by
  refine ⟨?_, ?_, ?_⟩
  · intro op; cases op <;> rfl
  · intro ops
    induction ops with
    | nil => rfl
    | cons op rest ih => cases op <;> exact ih
  · intro sched out reg
    simp [monitor_processes]

/-- C5: the liveness sweep is non-fatal.  (1) the sweep never mutates the
registry (it neither terminates children nor removes entries);
(2) an exited child is only reported: its name and exit code are logged at
warning severity; (3) an unexpected error inside an iteration is logged at
error severity and the loop continues with the next iteration; (4) a
subsequent `cleanup` on the already-exited child succeeds: a no-op teardown
with a success log. -/
theorem sweep_nonfatal
    (reg : Registry) (sched : List (Bool × TickOutcome)) :
    ((monitor_processes sched reg).1 = reg) ∧
    (∀ (nm : String) (info : ProcInfo) (c : Int)
        (rest : List (Bool × TickOutcome)),
      (nm, info) ∈ reg → pyPoll info.process = some c →
      (⟨.warning, "Process " ++ nm ++ " exited with code: " ++ toString c⟩ : LogMsg)
        ∈ (monitor_processes ((false, .normal) :: rest) reg).2.1) ∧
    (∀ (e : String) (rest : List (Bool × TickOutcome)),
      monitor_processes ((false, .errored e) :: rest) reg =
        (reg, ⟨.error, "Error monitoring processes: " ++ e⟩ ::
                (monitor_processes rest reg).2.1,
          (monitor_processes rest reg).2.2 + 1)) ∧
    (∀ (nm : String) (c : Int) (et tr : Bool),
      cleanupOne nm ⟨.exited c, et, tr⟩ =
        (⟨.exited c, et, tr⟩,
         [.log ⟨.info, "Terminating process: " ++ nm⟩, .termRequest nm,
          .grace nm,
          .log ⟨.success, "Process " ++ nm ++ " terminated successfully"⟩])) := by
  refine ⟨monitor_processes_reg sched reg, ?_, ?_, ?_⟩
  · intro nm info c rest hmem hc
    simp only [monitor_processes, if_neg (by decide : ¬False)]
    simp only [Bool.false_eq_true, if_false, List.mem_append]
    exact Or.inl (warning_mem_sweepWarnings reg nm info c hmem hc)
  · intro e rest
    simp [monitor_processes, monitor_processes_reg]
  · intro nm c et tr
    exact cleanupOne_exited nm c et tr

/-- Witness for C5 on the concrete registry `regExitedChild`, whose `bot`
entry has exited with code 3. -/
theorem sweep_nonfatal_witness :
    (⟨.warning, "Process " ++ "bot" ++ " exited with code: " ++ toString (3 : Int)⟩
        : LogMsg)
      ∈ (monitor_processes [(false, .normal)] regExitedChild).2.1 :=
  (sweep_nonfatal regExitedChild [(false, .normal)]).2.1 "bot"
    ⟨⟨.exited 3, false, false⟩, ["poetry", "run", "bot"]⟩ 3 [] (by decide) rfl

/-- C6 counterexample: with the bot spawn failing (`envBotSpawnFailure`),
the coordinator is indeed never started and cleanup runs over an empty
registry — but the program's exit code is 0, not 1 as the claim states:
`run_command` swallows the spawn exception and returns `None`, `async_main`
merely returns, so no exception ever reaches the `sys.exit(1)` handler in
`main`. -/
theorem worker_spawn_failure_counterexample :
    (async_main envBotSpawnFailure).spawnAttempts = ["bot"] ∧
    "meeting" ∉ (async_main envBotSpawnFailure).spawnAttempts ∧
    (async_main envBotSpawnFailure).registryAtCleanup = [] ∧
    mainExitCode envBotSpawnFailure = 0 ∧
    mainExitCode envBotSpawnFailure ≠ 1 := by
  refine ⟨by decide, by decide, by decide, by decide, by decide⟩

/-- C6 as amended: if spawning the worker (bot) process fails, the
coordinator (meeting) process is never started and `cleanup()` is invoked
over an empty registry — but the program exits with code 0 (the spawn
failure is logged and swallowed; `async_main` returns normally and no
exception reaches `main`'s `sys.exit(1)` path). -/
theorem worker_spawn_failure_behavior
    (env : Env) (u pn : String)
    (hu : env.meetingUrlArg = some u) (hne : u ≠ "")
    (hp : resolvePersona env.personaArg env.availablePersonas env.randIdx = .ok pn)
    (hb : env.botSpawnOk = false) :
    (async_main env).spawnAttempts = ["bot"] ∧
    "meeting" ∉ (async_main env).spawnAttempts ∧
    (async_main env).registryAtCleanup = [] ∧
    mainExitCode env = 0 := by
  have hres : (resolveMeetingUrl env).1 = some u := by
    simp [resolveMeetingUrl, hu, hne]
  have hmain : async_main env =
      { spawnAttempts := ["bot"], registryAtCleanup := [],
        cleanupTrace := (cleanup []).2, raised := none, caughtError := none } := by
    simp [async_main, hres, hp, run_command, hb]
  refine ⟨by rw [hmain], by rw [hmain]; decide, by rw [hmain], ?_⟩
  simp [mainExitCode, hmain]

/-- Witness for C6 (amended) on the concrete run `envBotSpawnFailure`. -/
theorem worker_spawn_failure_behavior_witness :
    (async_main envBotSpawnFailure).spawnAttempts = ["bot"] ∧
    "meeting" ∉ (async_main envBotSpawnFailure).spawnAttempts ∧
    (async_main envBotSpawnFailure).registryAtCleanup = [] ∧
    mainExitCode envBotSpawnFailure = 0 :=
  worker_spawn_failure_behavior envBotSpawnFailure
    "https://meet.example.com/abc" "alpha" rfl (by decide) rfl rfl

/-- C7 counterexample: the claim says only TRAILING whitespace is stripped,
but `log_output` calls Python's `str.strip()`, which removes leading
whitespace too.  On the line " leading" the code logs "bot: leading" while
the claim's description would log the leading space. -/
theorem relay_trailing_strip_counterexample :
    log_output [" leading"] "bot" ≠ relaySpecTrailing [" leading"] "bot" := by
  decide

/-- C7 as amended: for every line fed to the relay, LEADING AND trailing
whitespace are stripped, empty or whitespace-only lines produce no log
entry, and each remaining line is logged with the label at the severity
chosen by substring containment in priority order (ERROR, then WARNING,
then SUCCESS, else info).  Stated as: `log_output` coincides with the
spec-side relay `relaySpecAmended` on every stream and label. -/
theorem relay_classification (lines : List String) (label : String) :
    log_output lines label = relaySpecAmended lines label := by
  induction lines with
  | nil => rfl
  | cons raw rest ih =>
      simp only [log_output, List.filterMap_cons, relaySpecAmended]
      by_cases h : stripStr raw = ""
      · simpa [h] using ih
      · simp only [h, if_false, ← classifyLine_eq_table]
        rw [show relaySpecAmended rest label = log_output rest label from ih.symm]
        rfl

/-- C8: if a persona name is explicitly supplied and is not in the
collaborator's persona list, the driver raises a `ValueError` before any
child process is spawned (the error is caught by the outer handler, so the
session goes straight to cleanup having attempted no spawn); if no persona
name is supplied, `random.choice` picks index `i` of the available list —
with `i` drawn uniformly below the list length the selection is uniform
over the available set. -/
theorem persona_validation :
    (∀ (env : Env) (u p : String),
      env.meetingUrlArg = some u → u ≠ "" → env.personaArg = some p →
      p ∉ env.availablePersonas →
      (async_main env).spawnAttempts = [] ∧
      (async_main env).caughtError =
        some ("Persona " ++ p ++ " not found in available personas")) ∧
    (∀ (available : List String) (i : Nat) (h : i < available.length),
      resolvePersona none available i = .ok (available.get ⟨i, h⟩)) := by
  constructor
  · intro env u p hu hne hp hnotin
    have hres : (resolveMeetingUrl env).1 = some u := by
      simp [resolveMeetingUrl, hu, hne]
    have hper : resolvePersona env.personaArg env.availablePersonas env.randIdx =
        .error ("Persona " ++ p ++ " not found in available personas") := by
      simp [resolvePersona, hp, hnotin]
    simp [async_main, hres, hper]
  · intro available i h
    have h0 : ¬available.length = 0 := by omega
    simp [resolvePersona, h0, Nat.mod_eq_of_lt h]

/-- Witness for C8: the bad-persona scenario `envBadPersona`
(`--persona gamma` against the list `[alpha, beta]`) spawns nothing, and on
the random path index 1 of `[alpha, beta]` selects `beta`. -/
theorem persona_validation_witness :
    ((async_main envBadPersona).spawnAttempts = [] ∧
      (async_main envBadPersona).caughtError =
        some ("Persona " ++ "gamma" ++ " not found in available personas")) ∧
    resolvePersona none ["alpha", "beta"] 1 =
      .ok (["alpha", "beta"].get ⟨1, by decide⟩) :=
  ⟨persona_validation.1 envBadPersona "https://meet.example.com/abc" "gamma"
      rfl (by decide) rfl (by decide),
    persona_validation.2 ["alpha", "beta"] 1 (by decide)⟩

/-- C9 counterexample: on `envUnvalidatedUrl` the flag
`--meeting-url http://insecure.example.com/xyz` does not start with
`https://`, yet the driver spawns both processes and nothing fails: the
non-interactive path performs no URL validation at all, contradicting the
claim that an invalid non-interactive URL fails fatally before any process
is spawned. -/
theorem url_validation_counterexample :
    "meeting" ∈ (async_main envUnvalidatedUrl).spawnAttempts ∧
    (async_main envUnvalidatedUrl).raised = none ∧
    startsWithStr "https://" "http://insecure.example.com/xyz" = false := by
  refine ⟨by decide, by decide, by decide⟩

/-- C9 as amended: only INTERACTIVE input is validated — every URL the
interactive prompt accepts starts with `https://`, and an invalid
interactive entry logs a warning and re-prompts on the remaining input —
while a URL supplied via `--meeting-url` (non-empty) is used verbatim with
no validation at all. -/
theorem url_validation_interactive_only :
    (∀ (inputs : List String) (u : String) (ls : List LogMsg),
      get_user_input inputs = (some u, ls) →
      startsWithStr "https://" u = true) ∧
    (∀ (i : String) (rest : List String),
      startsWithStr "https://" (stripStr i) = false →
      get_user_input (i :: rest) =
        ((get_user_input rest).1,
         ⟨.warning, "Invalid input received: URL must start with https://"⟩ ::
           (get_user_input rest).2)) ∧
    (∀ (env : Env) (u : String), env.meetingUrlArg = some u → u ≠ "" →
      resolveMeetingUrl env = (some u, [])) := by
  refine ⟨?_, ?_, ?_⟩
  · intro inputs
    induction inputs with
    | nil => intro u ls h; cases h
    | cons i rest ih =>
        intro u ls h
        by_cases hv : startsWithStr "https://" (stripStr i) = true
        · have : get_user_input (i :: rest) = (some (stripStr i), []) := by
            simp [get_user_input, validate_url, hv]
          rw [this] at h
          obtain ⟨hu, -⟩ := Prod.mk.injEq .. ▸ h
          cases h
          exact hv
        · have hv' : startsWithStr "https://" (stripStr i) = false := by
            simpa using hv
          have : get_user_input (i :: rest) =
              ((get_user_input rest).1,
               ⟨.warning, "Invalid input received: URL must start with https://"⟩ ::
                 (get_user_input rest).2) := by
            simp [get_user_input, validate_url, hv']
          rw [this] at h
          exact ih u _ (by
            have h1 := congrArg Prod.fst h
            simp at h1
            exact Prod.ext h1 rfl)
  · intro i rest hv
    simp [get_user_input, validate_url, hv]
  · intro env u hu hne
    simp [resolveMeetingUrl, hu, hne]

/-- Witness for C9 (amended): the prompt rejects `http://a`, warns, and
then accepts `https://b`; a non-empty `--meeting-url` flag value is used
verbatim. -/
theorem url_validation_interactive_only_witness :
    startsWithStr "https://" "https://b" = true ∧
    get_user_input ["http://a", "https://b"] =
      ((get_user_input ["https://b"]).1,
       ⟨.warning, "Invalid input received: URL must start with https://"⟩ ::
         (get_user_input ["https://b"]).2) ∧
    resolveMeetingUrl envUnvalidatedUrl =
      (some "http://insecure.example.com/xyz", []) :=
  ⟨url_validation_interactive_only.1 ["http://a", "https://b"] "https://b"
      [⟨.warning, "Invalid input received: URL must start with https://"⟩]
      (by decide),
    url_validation_interactive_only.2.1 "http://a" ["https://b"] (by decide),
    url_validation_interactive_only.2.2 envUnvalidatedUrl
      "http://insecure.example.com/xyz" rfl (by decide)⟩

/-- C10 (implicit): when `run_command` is called with a name already in the
registry and the spawn succeeds, the existing entry is silently overwritten
in place — the new entry is present, the old one is gone, no key is added —
and a subsequent `cleanup` issues exactly one termination request under
that name (so the orphaned old process is never terminated).  On spawn
failure the registry is returned unchanged. -/
theorem run_command_overwrite :
    (∀ (reg : Registry) (command : List String) (name : String) (p : Proc)
        (oldInfo : ProcInfo),
      (reg.map Prod.fst).Nodup → (name, oldInfo) ∈ reg →
      oldInfo ≠ ⟨p, command⟩ →
      (run_command reg command name true p).2 = true ∧
      (name, ProcInfo.mk p command) ∈ (run_command reg command name true p).1 ∧
      (name, oldInfo) ∉ (run_command reg command name true p).1 ∧
      (run_command reg command name true p).1.map Prod.fst = reg.map Prod.fst ∧
      ((cleanup (run_command reg command name true p).1).2).count
          (CleanupEvent.termRequest name) = 1) ∧
    (∀ (reg : Registry) (command : List String) (name : String) (p : Proc),
      run_command reg command name false p = (reg, false)) := by
  constructor
  · intro reg command name p oldInfo hnd hmem hne
    have hkey : name ∈ reg.map Prod.fst := List.mem_map_of_mem Prod.fst hmem
    have hrc : (run_command reg command name true p).1 =
        registryInsert reg name ⟨p, command⟩ := by
      simp [run_command]
    refine ⟨by simp [run_command], ?_, ?_, ?_, ?_⟩
    · rw [hrc]; exact registryInsert_mem_self reg name ⟨p, command⟩
    · rw [hrc]; exact registryInsert_old_not_mem reg name ⟨p, command⟩ oldInfo hnd hne
    · rw [hrc]; exact registryInsert_keys_of_mem reg name ⟨p, command⟩ hkey
    · rw [hrc, count_termRequest_cleanup,
        registryInsert_keys_of_mem reg name ⟨p, command⟩ hkey]
      exact List.count_eq_one_of_mem hnd hkey
  · intro reg command name p
    simp [run_command]

/-- Witness for C10 on a concrete two-process registry: re-spawning under
the existing name `bot` overwrites that entry. -/
theorem run_command_overwrite_witness :
    ((run_command regExitedChild ["poetry", "run", "bot", "-p", "9000"] "bot"
        true ⟨.running, true, false⟩).2 = true ∧
      ("bot", ProcInfo.mk ⟨.running, true, false⟩
          ["poetry", "run", "bot", "-p", "9000"]) ∈
        (run_command regExitedChild ["poetry", "run", "bot", "-p", "9000"] "bot"
          true ⟨.running, true, false⟩).1 ∧
      ("bot", (⟨⟨.exited 3, false, false⟩, ["poetry", "run", "bot"]⟩ : ProcInfo)) ∉
        (run_command regExitedChild ["poetry", "run", "bot", "-p", "9000"] "bot"
          true ⟨.running, true, false⟩).1 ∧
      (run_command regExitedChild ["poetry", "run", "bot", "-p", "9000"] "bot"
          true ⟨.running, true, false⟩).1.map Prod.fst =
        regExitedChild.map Prod.fst ∧
      ((cleanup (run_command regExitedChild ["poetry", "run", "bot", "-p", "9000"]
            "bot" true ⟨.running, true, false⟩).1).2).count
          (CleanupEvent.termRequest "bot") = 1) ∧
    run_command regExitedChild ["poetry", "run", "bot", "-p", "9000"] "bot"
        false ⟨.running, true, false⟩ = (regExitedChild, false) :=
  ⟨run_command_overwrite.1 regExitedChild ["poetry", "run", "bot", "-p", "9000"]
      "bot" ⟨.running, true, false⟩ ⟨⟨.exited 3, false, false⟩, ["poetry", "run", "bot"]⟩
      (by decide) (by decide) (by decide),
    run_command_overwrite.2 regExitedChild ["poetry", "run", "bot", "-p", "9000"]
      "bot" ⟨.running, true, false⟩⟩

end Batch
